import Mathlib

/-!
Verification of the auditor-tools observable-state core and incremental
log-rendering pipeline.

The definitions below are a shallow embedding of the TypeScript sources:
`LogPanel` (incremental log view), `AppState` (observable store) and the
relevant parts of `EPTAppShell` (drop handler and `startProcessing`).
The DOM container of the log panel is modelled as a list of render nodes
(either a rendered log entry or the empty-state placeholder); `notify`
and `subscribe` are modelled with an explicit heap of listener arrays so
that the JavaScript aliasing behaviour (`filter` allocates a fresh array,
`forEach` iterates the array captured at call time) is preserved.
-/

set_option maxHeartbeats 1000000

/-- Embedding of the `LogEntry` interface from `AppState.ts`. -/
structure LogEntry where
  level : String
  message : String
  timestamp : String
deriving DecidableEq, Repr

/-- Embedding of `levelHierarchy[level] ?? 2` from `LogPanel.shouldShowLog`:
the dictionary maps ERROR to 0, WARNING to 1, INFO to 2, and any other key
falls back to 2. -/
def levelIndex (level : String) : Nat :=
  if level = "ERROR" then 0
  else if level = "WARNING" then 1
  else if level = "INFO" then 2
  else 2

/-- Embedding of `LogPanel.shouldShowLog`. -/
def shouldShowLog (log : LogEntry) (minLevel : String) : Bool :=
  decide (levelIndex log.level ≤ levelIndex minLevel)

/-- Embedding of `LogPanel.filterLogsByLevel`. -/
def filterLogsByLevel (logs : List LogEntry) (minLevel : String) : List LogEntry :=
  logs.filter (fun log => shouldShowLog log minLevel)

/-- A node of the rendered log surface: either a rendered log entry
(`createLogElement` output) or the `div.log-empty` placeholder. -/
inductive RenderNode where
  | entry (log : LogEntry)
  | placeholder
deriving DecidableEq, Repr

/-- Embedding of the `LogPanel` component state: its two private counters
plus the contents of the `#logs-panel` DOM container. -/
structure LogPanel where
  lastRenderedCount : Nat
  lastLogLevel : String
  container : List RenderNode
deriving DecidableEq, Repr

namespace LogPanel

/-- The panel as produced by `LogPanel.render()`: fresh counters and the
`No logs yet` placeholder already present in the markup. -/
def initial : LogPanel :=
  { lastRenderedCount := 0, lastLogLevel := "", container := [RenderNode.placeholder] }

/-- Embedding of `container.querySelector(".log-empty")?.remove()` in
`appendLogs`: the first placeholder node, if any, is removed. -/
def removeFirstPlaceholder : List RenderNode → List RenderNode
  | [] => []
  | RenderNode.placeholder :: rest => rest
  | RenderNode.entry e :: rest => RenderNode.entry e :: removeFirstPlaceholder rest

/-- Embedding of `LogPanel.fullRender`: clear the container, reset the
counter, filter the whole sequence, render every admitted entry (or the
placeholder when none is admitted), and set the counter to the raw length. -/
def fullRender (panel : LogPanel) (logs : List LogEntry) (minLevel : String) : LogPanel :=
  let panelCleared : LogPanel := { panel with container := [], lastRenderedCount := 0 }
  let filteredLogs := filterLogsByLevel logs minLevel
  if filteredLogs.length = 0 then
    { panelCleared with container := [RenderNode.placeholder], lastRenderedCount := logs.length }
  else
    { panelCleared with
      container := filteredLogs.map RenderNode.entry,
      lastRenderedCount := logs.length }

/-- Embedding of `LogPanel.appendLogs`: remove a present placeholder, take
the slice beyond `lastRenderedCount`, filter it, append the admitted
entries, and set the counter to the raw length.  (The code only touches the
DOM when the filtered slice is non-empty; appending an empty fragment is
the identity, so the unconditional append below is equivalent.) -/
def appendLogs (panel : LogPanel) (logs : List LogEntry) (minLevel : String) : LogPanel :=
  let container1 := removeFirstPlaceholder panel.container
  let newLogs := logs.drop panel.lastRenderedCount
  let visibleNew := filterLogsByLevel newLogs minLevel
  { panel with
    container := container1 ++ visibleNew.map RenderNode.entry
    lastRenderedCount := logs.length }

/-- Embedding of `LogPanel.update`: decide between full render, incremental
append and no-op exactly as the source does, updating `lastLogLevel` before
branching. -/
def update (panel : LogPanel) (logs : List LogEntry) (selectedLogLevel : String) : LogPanel :=
  let panel1 : LogPanel := { panel with lastLogLevel := selectedLogLevel }
  if selectedLogLevel ≠ panel.lastLogLevel ∨ logs.length < panel.lastRenderedCount then
    fullRender panel1 logs selectedLogLevel
  else if logs.length > panel1.lastRenderedCount then
    appendLogs panel1 logs selectedLogLevel
  else
    panel1

end LogPanel

/-- The rendered surface a full render produces for a given filtered list:
the admitted entries in order, or the placeholder when none is admitted. -/
def renderSurface (filtered : List LogEntry) : List RenderNode :=
  if filtered.length = 0 then [RenderNode.placeholder]
  else filtered.map RenderNode.entry

/-- The log entries currently rendered in a container, in order
(placeholder nodes are not entries). -/
def renderedEntries (c : List RenderNode) : List LogEntry :=
  c.filterMap fun n => match n with
    | RenderNode.entry e => some e
    | RenderNode.placeholder => none

/-- Consistency of a panel with the store's current `logs`: the counter is
a valid high-water mark and the rendered entries are exactly the admitted
prefix under the panel's last threshold.  This holds for every panel state
reachable by driving `update` against an append-only log. -/
def panelConsistent (panel : LogPanel) (logs : List LogEntry) : Prop :=
  panel.lastRenderedCount ≤ logs.length ∧
  renderedEntries panel.container =
    filterLogsByLevel (logs.take panel.lastRenderedCount) panel.lastLogLevel

/-- Spec-side severity enumeration (spec section 3, Data Model). -/
inductive Severity where
  | error | warning | info
deriving DecidableEq, Repr

/-- Spec-side severity rank: ERROR < WARNING < INFO, ERROR most severe. -/
def severityRank : Severity → Nat
  | Severity.error => 0
  | Severity.warning => 1
  | Severity.info => 2

/-- The level string the code uses for each spec-side severity. -/
def severityStr : Severity → String
  | Severity.error => "ERROR"
  | Severity.warning => "WARNING"
  | Severity.info => "INFO"

/-- Embedding of the `ReportModel` interface from `AppState.ts`. -/
structure ReportModel where
  file_name : String
  sha512 : Option String
  processed : String
  skip_reason : Option String
  relative_path : String
  file_type : String
  file_size_bytes : Nat
  file_size_human : String
  last_modified : String
  created_time : String
deriving DecidableEq, Repr

/-- Embedding of the `ProcessingResult` interface from `AppState.ts`. -/
structure ProcessingResult where
  entries : List ReportModel
  staging_path : String
  llm_output_path : String
  report_path : String
deriving DecidableEq, Repr

/-- Embedding of the data fields of `AppState` (the listener array is
modelled separately, see `ObsHeap`). -/
structure AppState where
  selectedPath : Option String
  isProcessing : Bool
  logs : List LogEntry
  processingResult : Option ProcessingResult
  selectedLogLevel : String
  progressCurrent : Int
  progressTotal : Int
  currentTaskCategory : String
  statusMessage : String
deriving DecidableEq, Repr

/-- JavaScript truthiness of an optional string field: `null`/`undefined`
and the empty string are falsy. -/
def truthyStr : Option String → Bool
  | some s => s ≠ ""
  | none => false

namespace AppState

/-- The field initialisers of `AppState`. -/
def initial : AppState :=
  { selectedPath := none
    isProcessing := false
    logs := []
    processingResult := none
    selectedLogLevel := "WARNING"
    progressCurrent := 0
    progressTotal := 0
    currentTaskCategory := ""
    statusMessage := "" }

/-- Embedding of `AppState.setSelectedPath`; the second component counts
the `notify()` calls the method performs. -/
def setSelectedPath (s : AppState) (path : Option String) : AppState × Nat :=
  ({ s with selectedPath := path }, 1)

/-- Embedding of `AppState.setProcessing`. -/
def setProcessing (s : AppState) (isProcessing : Bool) : AppState × Nat :=
  ({ s with isProcessing := isProcessing }, 1)

/-- Embedding of `AppState.setProcessingResult`. -/
def setProcessingResult (s : AppState) (result : Option ProcessingResult) : AppState × Nat :=
  ({ s with processingResult := result }, 1)

/-- Embedding of `AppState.setSelectedLogLevel`. -/
def setSelectedLogLevel (s : AppState) (level : String) : AppState × Nat :=
  ({ s with selectedLogLevel := level }, 1)

/-- Embedding of `AppState.updateProgress`. -/
def updateProgress (s : AppState) (current total : Int) (taskCategory : String) :
    AppState × Nat :=
  ({ s with
     progressCurrent := current
     progressTotal := total
     currentTaskCategory := taskCategory }, 1)

/-- Embedding of `AppState.setStatusMessage`. -/
def setStatusMessage (s : AppState) (message : String) : AppState × Nat :=
  ({ s with statusMessage := message }, 1)

/-- Embedding of `AppState.addLog`; the timestamp the method reads from
the clock is passed in as a parameter. -/
def addLog (s : AppState) (level message timestamp : String) : AppState × Nat :=
  ({ s with
     logs := s.logs ++ [{ level := level, message := message, timestamp := timestamp }] }, 1)

/-- Embedding of `AppState.clearLogs`. -/
def clearLogs (s : AppState) : AppState × Nat :=
  ({ s with logs := [] }, 1)

/-- Embedding of `AppState.reset`: every field is written back to its
initialiser, then one `notify()`. -/
def reset (s : AppState) : AppState × Nat :=
  ({ s with
     selectedPath := none
     isProcessing := false
     logs := []
     processingResult := none
     selectedLogLevel := "WARNING"
     progressCurrent := 0
     progressTotal := 0
     currentTaskCategory := ""
     statusMessage := "" }, 1)

end AppState

/-- The sequence of store states produced by the mutations of
`EPTAppShell.startProcessing`, in order.  `backend` is the settled outcome
of the `start_processing` invoke call; `ts1` and `ts2` are the clock reads
of the two `addLog` calls.  The guard mirrors
`if (!this.appState.selectedPath || this.appState.isProcessing) return`. -/
def startProcessingTrace (s : AppState) (ts1 : String)
    (backend : Except String ProcessingResult) (ts2 : String) : List AppState :=
  if truthyStr s.selectedPath = false ∨ s.isProcessing = true then []
  else
    let s1 := (AppState.setProcessing s true).1
    let s2 := (AppState.setProcessingResult s1 none).1
    let s3 := (AppState.updateProgress s2 0 0 "").1
    let s4 := (AppState.addLog s3 "INFO" "Starting processing..." ts1).1
    match backend with
    | Except.ok result =>
      let processedCount := (result.entries.filter (fun e => e.processed = "Yes")).length
      let s5 := (AppState.setProcessingResult s4 (some result)).1
      let s6 := (AppState.addLog s5 "INFO"
        ("Processing complete. Found " ++ toString result.entries.length ++ " files, " ++
          toString processedCount ++ " processed.") ts2).1
      let statusMessage :=
        "Processed " ++ toString processedCount ++ " of " ++
          toString result.entries.length ++ " files.\n\n" ++
        "<strong>Staging Folder:</strong> " ++ result.staging_path ++ "\n" ++
        "<strong>LLM Output Folder:</strong> " ++ result.llm_output_path ++ "\n" ++
        "<strong>Report File:</strong> " ++ result.report_path
      let s7 := (AppState.setStatusMessage s6 statusMessage).1
      let s8 := (AppState.setProcessing s7 false).1
      [s1, s2, s3, s4, s5, s6, s7, s8]
    | Except.error e =>
      let s5 := (AppState.addLog s4 "ERROR" ("Processing failed: " ++ e) ts2).1
      let s6 := (AppState.setStatusMessage s5 ("Error: " ++ e)).1
      let s7 := (AppState.setProcessing s6 false).1
      [s1, s2, s3, s4, s5, s6, s7]

/-- The store state after `startProcessing` completes (the last state of
the mutation trace; the unchanged state when the guard returned early). -/
def startProcessingFinal (s : AppState) (ts1 : String)
    (backend : Except String ProcessingResult) (ts2 : String) : AppState :=
  (startProcessingTrace s ts1 backend ts2).getLastD s

/-- Embedding of a `File` object as the drop handler reads it: the
non-standard `path`, `webkitRelativePath`, and `name`. -/
structure FileObj where
  path : Option String
  webkitRelativePath : Option String
  name : String
deriving DecidableEq, Repr

/-- Embedding of a `DataTransferItem`: its `kind` and the result of
`getAsFile()`. -/
structure ItemObj where
  kind : String
  file : Option FileObj
deriving DecidableEq, Repr

/-- Embedding of the `dataTransfer` payload of a drop event (an absent
`dataTransfer` is the empty payload). -/
structure DropData where
  files : List FileObj
  items : List ItemObj
deriving DecidableEq, Repr

/-- An observable action the drop handler performs on the application. -/
inductive DropAction where
  | log (level message : String)
  | handleInput (path : String)
deriving DecidableEq, Repr

/-- Embedding of the items-API fallback loop of the drop-zone drop handler
in `EPTAppShell.setupEventListeners`: scan for the first file-kind item
whose file exposes a truthy `path`; when none is found, log the ERROR. -/
def itemsScan : List ItemObj → List DropAction
  | [] => [DropAction.log "ERROR" "No files found in drop event or could not extract path"]
  | item :: rest =>
    if item.kind = "file" then
      match item.file with
      | some f =>
        if truthyStr f.path then
          [DropAction.log "INFO" ("Processing dropped item: " ++ f.path.getD ""),
           DropAction.handleInput (f.path.getD "")]
        else itemsScan rest
      | none => itemsScan rest
    else itemsScan rest

/-- Embedding of the drop-zone drop handler of
`EPTAppShell.setupEventListeners`: first the `files` list (path, then
`webkitRelativePath`, warning on a named file without either), then the
items-API fallback, then the ERROR log. -/
def dropHandler (d : DropData) : List DropAction :=
  match d.files with
  | file :: _ =>
    let path : Option String :=
      if truthyStr file.path then file.path
      else if truthyStr file.webkitRelativePath then file.webkitRelativePath
      else none
    match path with
    | some p =>
      [DropAction.log "INFO" ("Processing dropped item: " ++ p),
       DropAction.handleInput p]
    | none =>
      let warnActs : List DropAction :=
        if file.name ≠ "" then
          [DropAction.log "WARN"
            ("File dropped but no path found. File name: " ++ file.name ++
              ". This may not work for folders.")]
        else []
      warnActs ++ itemsScan d.items
  | [] => itemsScan d.items

/-- Embedding of `EPTAppShell.handleUserInput`, parameterised by the
backend `handle_user_input` call. -/
def handleUserInput (s : AppState) (normalize : String → Except String String)
    (ts : String) (path : String) : AppState :=
  match normalize path with
  | Except.ok np =>
    (AppState.addLog (AppState.setSelectedPath s (some np)).1 "INFO"
      ("Selected: " ++ np) ts).1
  | Except.error e =>
    (AppState.addLog s "ERROR" ("Invalid path: " ++ e) ts).1

/-- Apply the actions of a drop-handler run to the store. -/
def applyDropActions (s : AppState) (normalize : String → Except String String)
    (ts : String) : List DropAction → AppState
  | [] => s
  | DropAction.log lvl msg :: rest =>
    applyDropActions (AppState.addLog s lvl msg ts).1 normalize ts rest
  | DropAction.handleInput p :: rest =>
    applyDropActions (handleUserInput s normalize ts p) normalize ts rest

/-- Heap model of the `AppState.listeners` array and its aliasing:
`arrays` is the heap of listener arrays ever allocated, `cur` the
reference stored in `this.listeners`.  Listeners are identified by
numbers. -/
structure ObsHeap where
  arrays : List (List Nat)
  cur : Nat
deriving DecidableEq, Repr

namespace ObsHeap

/-- The listeners currently registered (`this.listeners`). -/
def listeners (h : ObsHeap) : List Nat :=
  h.arrays.getD h.cur []

/-- Embedding of the unsubscribe closure returned by `AppState.subscribe`:
`this.listeners = this.listeners.filter((l) => l !== listener)` allocates
a fresh array and repoints the field; no existing array is mutated. -/
def unsub (h : ObsHeap) (id : Nat) : ObsHeap :=
  { arrays := h.arrays ++ [h.listeners.filter (fun l => l ≠ id)]
    cur := h.arrays.length }

/-- One pass of `notify`'s `forEach` loop, iterating by index over the
array object captured (by reference `r`) when `notify` started, while each
callback may unsubscribe any set of listeners.  Returns the listeners
invoked, in order, and the final heap. -/
def notifyLoop (cb : Nat → List Nat) (r : Nat) : Nat → Nat → ObsHeap → List Nat × ObsHeap
  | _, 0, h => ([], h)
  | i, n + 1, h =>
    match (h.arrays.getD r []).get? i with
    | none => ([], h)
    | some l =>
      let h1 := (cb l).foldl unsub h
      let res := notifyLoop cb r (i + 1) n h1
      (l :: res.1, res.2)

/-- Embedding of `AppState.notify`: `this.listeners.forEach((l) => l())`
evaluates `this.listeners` once and iterates that array object. -/
def notify (cb : Nat → List Nat) (h : ObsHeap) : List Nat × ObsHeap :=
  notifyLoop cb h.cur 0 h.listeners.length h

end ObsHeap

/-- Whether a `DataTransferItem` exposes a direct filesystem path through
`getAsFile()` (the check `file && file.path` of the items loop). -/
def itemExposesPath (item : ItemObj) : Bool :=
  match item.file with
  | some f => truthyStr f.path
  | none => false

/-- The log entries of the second testable-properties scenario of the spec:
INFO "a", WARNING "b", ERROR "c". -/
def scenarioLogs : List LogEntry :=
  [{ level := "INFO", message := "a", timestamp := "t1" },
   { level := "WARNING", message := "b", timestamp := "t2" },
   { level := "ERROR", message := "c", timestamp := "t3" }]

/-- A previous job's result, still stored in the state when a new job
starts. -/
def sampleResult : ProcessingResult :=
  { entries := [], staging_path := "/staging", llm_output_path := "/llm",
    report_path := "/report" }

/-- A store state with a selected path, idle, and the previous job's
result still stored. -/
def c3Start : AppState :=
  { AppState.initial with selectedPath := some "/x", processingResult := some sampleResult }

/-- A listener heap with one allocated array holding listeners 1, 2, 3. -/
def obsExample : ObsHeap := { arrays := [[1, 2, 3]], cur := 0 }

/-- A subscriber behaviour where every listener unsubscribes itself during
the notification. -/
def cbExample : Nat → List Nat := fun l => [l]

/-- A file-kind item whose `getAsFile()` result exposes no direct path. -/
def fileNoPath : FileObj :=
  { path := none, webkitRelativePath := none, name := "evidence.zip" }

/-- A drop payload carrying only a browser item-list: one file-kind item
without a direct path and one non-file item. -/
def dropNoPath : DropData :=
  { files := [], items := [{ kind := "file", file := some fileNoPath },
                           { kind := "string", file := none }] }

/-- A trivial backend path-normalisation stub for witnesses. -/
def normalizeExample : String → Except String String := fun p => Except.ok p

/-! ## Helper lemmas about the rendered surface -/

theorem renderedEntries_map_entry (f : List LogEntry) :
    renderedEntries (f.map RenderNode.entry) = f := by
  induction f with
  | nil => rfl
  | cons a t ih =>
    simp only [List.map_cons, renderedEntries, List.filterMap_cons] at ih ⊢
    rw [ih]

theorem renderedEntries_renderSurface (f : List LogEntry) :
    renderedEntries (renderSurface f) = f := by
  unfold renderSurface
  by_cases h : f.length = 0
  · rw [if_pos h]
    rw [List.length_eq_zero] at h
    subst h
    rfl
  · rw [if_neg h]
    exact renderedEntries_map_entry f

theorem renderedEntries_append (a b : List RenderNode) :
    renderedEntries (a ++ b) = renderedEntries a ++ renderedEntries b :=
  List.filterMap_append a b _

theorem renderedEntries_removeFirstPlaceholder (c : List RenderNode) :
    renderedEntries (LogPanel.removeFirstPlaceholder c) = renderedEntries c := by
  induction c with
  | nil => rfl
  | cons n t ih =>
    cases n with
    | placeholder =>
      simp only [LogPanel.removeFirstPlaceholder, renderedEntries, List.filterMap_cons]
    | entry e =>
      simp only [LogPanel.removeFirstPlaceholder, renderedEntries, List.filterMap_cons] at ih ⊢
      rw [ih]

theorem fullRender_eq (panel : LogPanel) (logs : List LogEntry) (minLevel : String) :
    LogPanel.fullRender panel logs minLevel =
      { lastRenderedCount := logs.length, lastLogLevel := panel.lastLogLevel,
        container := renderSurface (filterLogsByLevel logs minLevel) } := by
  by_cases h : (filterLogsByLevel logs minLevel).length = 0
  · simp [LogPanel.fullRender, renderSurface, h]
  · simp [LogPanel.fullRender, renderSurface, h]

/-- Claim C1: `LogPanel.update` performs a full render exactly when the
threshold differs from `lastLogLevel` or the log length shrank below
`lastRenderedCount` — rendering the filter of the entire sequence and
setting `lastRenderedCount` to the raw length — otherwise appends the
filtered slice beyond `lastRenderedCount` when the log grew, and otherwise
is a no-op. -/
theorem c1_update_contract (panel : LogPanel) (logs : List LogEntry) (level : String) :
    ((level ≠ panel.lastLogLevel ∨ logs.length < panel.lastRenderedCount) →
      LogPanel.update panel logs level =
        { lastLogLevel := level, lastRenderedCount := logs.length,
          container := renderSurface (filterLogsByLevel logs level) }) ∧
    (level = panel.lastLogLevel → panel.lastRenderedCount < logs.length →
      LogPanel.update panel logs level =
        { lastLogLevel := level, lastRenderedCount := logs.length,
          container := LogPanel.removeFirstPlaceholder panel.container ++
            (filterLogsByLevel (logs.drop panel.lastRenderedCount) level).map
              RenderNode.entry }) ∧
    (level = panel.lastLogLevel → logs.length = panel.lastRenderedCount →
      LogPanel.update panel logs level = panel) := by
  refine ⟨fun h => ?_, fun h1 h2 => ?_, fun h1 h2 => ?_⟩
  · simp only [LogPanel.update]
    rw [if_pos h, fullRender_eq]
  · have hcond : ¬(level ≠ panel.lastLogLevel ∨ logs.length < panel.lastRenderedCount) := by
      rw [not_or]
      exact ⟨not_not_intro h1, by omega⟩
    simp only [LogPanel.update]
    rw [if_neg hcond, if_pos (show logs.length > panel.lastRenderedCount from h2)]
    rfl
  · have hcond : ¬(level ≠ panel.lastLogLevel ∨ logs.length < panel.lastRenderedCount) := by
      rw [not_or]
      exact ⟨not_not_intro h1, by omega⟩
    simp only [LogPanel.update]
    rw [if_neg hcond, if_neg (show ¬(logs.length > panel.lastRenderedCount) by omega)]
    subst h1
    rfl

/-- Closed instance of the C1 contract: the very first `update` after
mounting (threshold differs from the initial empty `lastLogLevel`) is a
full render. -/
theorem c1_update_contract_witness :
    LogPanel.update LogPanel.initial
        [{ level := "ERROR", message := "boom", timestamp := "t0" }] "WARNING" =
      { lastLogLevel := "WARNING", lastRenderedCount := 1,
        container := [RenderNode.entry
          { level := "ERROR", message := "boom", timestamp := "t0" }] } := by
  have h := (c1_update_contract LogPanel.initial
    [{ level := "ERROR", message := "boom", timestamp := "t0" }] "WARNING").1
    (Or.inl (by decide))
  exact h.trans (by decide)

/-- Claim C2: an entry is admitted iff its severity rank is at most the
threshold's rank (ERROR 0 < WARNING 1 < INFO 2), and the spec scenario:
entries INFO "a", WARNING "b", ERROR "c" under threshold WARNING render
exactly b, c; lowering the threshold to INFO with no new entries triggers
a full render showing a, b, c. -/
theorem c2_severity_threshold :
    (∀ (e t : Severity) (msg ts : String),
      shouldShowLog { level := severityStr e, message := msg, timestamp := ts }
          (severityStr t) = true ↔ severityRank e ≤ severityRank t) ∧
    LogPanel.update LogPanel.initial scenarioLogs "WARNING" =
      { lastLogLevel := "WARNING", lastRenderedCount := 3,
        container := [RenderNode.entry { level := "WARNING", message := "b", timestamp := "t2" },
                      RenderNode.entry { level := "ERROR", message := "c", timestamp := "t3" }] } ∧
    LogPanel.update (LogPanel.update LogPanel.initial scenarioLogs "WARNING")
        scenarioLogs "INFO" =
      { lastLogLevel := "INFO", lastRenderedCount := 3,
        container := [RenderNode.entry { level := "INFO", message := "a", timestamp := "t1" },
                      RenderNode.entry { level := "WARNING", message := "b", timestamp := "t2" },
                      RenderNode.entry { level := "ERROR", message := "c", timestamp := "t3" }] } := by
  refine ⟨fun e t msg ts => ?_, by decide, by decide⟩
  cases e <;> cases t <;>
    simp [shouldShowLog, severityStr, severityRank, levelIndex]

/-- Claim C4 is a code bug, evaluated here at the failing input: after a
clear the placeholder is shown, but an appended entry that the current
threshold does not admit removes the placeholder without rendering
anything, leaving a blank viewport (the claim requires the placeholder to
stay). -/
theorem c4_blank_viewport_bug :
    (LogPanel.update
        { lastRenderedCount := 1
          lastLogLevel := "WARNING"
          container := [RenderNode.entry { level := "ERROR", message := "old", timestamp := "t0" }] }
        [] "WARNING").container = [RenderNode.placeholder] ∧
    (LogPanel.update
      (LogPanel.update
        { lastRenderedCount := 1
          lastLogLevel := "WARNING"
          container := [RenderNode.entry { level := "ERROR", message := "old", timestamp := "t0" }] }
        [] "WARNING")
      [{ level := "INFO", message := "quiet", timestamp := "t1" }] "WARNING").container = [] := by
  constructor <;> decide

/-! ## Invariants of the update loop -/

theorem update_lastRenderedCount (panel : LogPanel) (logs : List LogEntry) (level : String) :
    (LogPanel.update panel logs level).lastRenderedCount = logs.length := by
  simp only [LogPanel.update]
  split
  · rw [fullRender_eq]
  · rename_i h
    split
    · simp [LogPanel.appendLogs]
    · rename_i h2
      simp only [not_or, not_lt] at h h2
      show panel.lastRenderedCount = logs.length
      omega

theorem update_lastLogLevel (panel : LogPanel) (logs : List LogEntry) (level : String) :
    (LogPanel.update panel logs level).lastLogLevel = level := by
  simp only [LogPanel.update]
  split
  · rw [fullRender_eq]
  · split
    · simp [LogPanel.appendLogs]
    · rfl

theorem update_entries_of_consistent (panel : LogPanel) (logs : List LogEntry) (t : String)
    (hcons : panelConsistent panel logs) :
    renderedEntries (LogPanel.update panel logs t).container = filterLogsByLevel logs t := by
  obtain ⟨hle, hren⟩ := hcons
  simp only [LogPanel.update]
  split
  · rw [fullRender_eq]
    exact renderedEntries_renderSurface _
  · rename_i h
    rw [not_or, not_not, not_lt] at h
    obtain ⟨hlvl, _⟩ := h
    rw [← hlvl] at hren
    split
    · show renderedEntries (LogPanel.appendLogs
        { panel with lastLogLevel := t } logs t).container = filterLogsByLevel logs t
      simp only [LogPanel.appendLogs]
      show renderedEntries (LogPanel.removeFirstPlaceholder panel.container ++
        (filterLogsByLevel (logs.drop panel.lastRenderedCount) t).map RenderNode.entry) = _
      rw [renderedEntries_append, renderedEntries_removeFirstPlaceholder, hren,
        renderedEntries_map_entry]
      simp only [filterLogsByLevel]
      rw [← List.filter_append, List.take_append_drop]
    · rename_i h2
      rw [not_lt] at h2
      have hcount : panel.lastRenderedCount = logs.length := by omega
      show renderedEntries panel.container = filterLogsByLevel logs t
      rw [hren, hcount, List.take_length]

theorem update_preserves_consistent (panel : LogPanel) (logs : List LogEntry) (t : String)
    (hcons : panelConsistent panel logs) :
    panelConsistent (LogPanel.update panel logs t) logs := by
  constructor
  · rw [update_lastRenderedCount]
  · rw [update_entries_of_consistent panel logs t hcons, update_lastRenderedCount,
      update_lastLogLevel, List.take_length]

/-- Claim C5: for a panel consistent with the current log sequence,
switching the threshold from T1 to T2 and back to T1 with no intervening
log changes renders exactly the entries, in the same order, that a single
uninterrupted update under T1 renders — namely the T1-filter of the whole
sequence. -/
theorem c5_threshold_roundtrip (panel : LogPanel) (logs : List LogEntry) (t1 t2 : String)
    (hne : t1 ≠ t2) (hcons : panelConsistent panel logs) :
    renderedEntries (LogPanel.update (LogPanel.update (LogPanel.update panel logs t1)
        logs t2) logs t1).container =
      renderedEntries (LogPanel.update panel logs t1).container ∧
    renderedEntries (LogPanel.update (LogPanel.update (LogPanel.update panel logs t1)
        logs t2) logs t1).container = filterLogsByLevel logs t1 := by
  have h1 := update_preserves_consistent panel logs t1 hcons
  have h2 := update_preserves_consistent _ logs t2 h1
  have e3 := update_entries_of_consistent _ logs t1 h2
  have e1 := update_entries_of_consistent panel logs t1 hcons
  exact ⟨e3.trans e1.symm, e3⟩

/-- Closed instance of the C5 round-trip on the spec scenario entries,
starting from the freshly mounted panel. -/
theorem c5_threshold_roundtrip_witness :
    renderedEntries (LogPanel.update (LogPanel.update (LogPanel.update LogPanel.initial
        scenarioLogs "WARNING") scenarioLogs "INFO") scenarioLogs "WARNING").container =
      renderedEntries (LogPanel.update LogPanel.initial scenarioLogs "WARNING").container :=
  (c5_threshold_roundtrip LogPanel.initial scenarioLogs "WARNING" "INFO"
    (by decide) (by constructor <;> decide)).1

/-- Claim C3 counterexample: starting a job from an idle state that still
holds the previous job's result, the very first mutation of
`startProcessing` sets `isProcessing := true` while `processingResult` is
still the old result — the result is not cleared before the flag is set,
contradicting the claim that no such intermediate state exists. -/
theorem c3_result_cleared_late_counterexample :
    (startProcessingTrace c3Start "t1" (Except.error "boom") "t2").get? 0 =
      some { c3Start with isProcessing := true } ∧
    ({ c3Start with isProcessing := true } : AppState).isProcessing = true ∧
    ({ c3Start with isProcessing := true } : AppState).processingResult = some sampleResult := by
  refine ⟨by decide, rfl, rfl⟩

/-- Claim C3 amended: starting a job sets `isProcessing := true` first and
clears the previous result in the immediately following mutation, so the
mutation sequence has exactly one leading state in which `isProcessing`
is already true while the previous job's result is still stored, and the
result is cleared from the second mutation on (before the backend call). -/
theorem c3_processing_set_before_result_cleared (s : AppState) (ts1 : String)
    (backend : Except String ProcessingResult) (ts2 : String)
    (hpath : truthyStr s.selectedPath = true) (hidle : s.isProcessing = false) :
    (startProcessingTrace s ts1 backend ts2).get? 0 = some { s with isProcessing := true } ∧
    (startProcessingTrace s ts1 backend ts2).get? 1 =
      some { s with isProcessing := true, processingResult := none } := by
  unfold startProcessingTrace
  rw [if_neg (by simp [hpath, hidle])]
  cases backend <;> exact ⟨rfl, rfl⟩

/-- Closed instance of the amended C3 behaviour on the concrete start
state of the counterexample. -/
theorem c3_processing_set_before_result_cleared_witness :
    (startProcessingTrace c3Start "t1" (Except.error "boom") "t2").get? 1 =
      some { c3Start with isProcessing := true, processingResult := none } :=
  (c3_processing_set_before_result_cleared c3Start "t1" (Except.error "boom") "t2"
    (by decide) (by decide)).2

/-- Claim C6: whenever `startProcessing` actually runs a job, the final
state of its mutation sequence has `isProcessing = false` whether the
backend call returned a result or threw (the `finally` block), and on
failure a status message and an error-level log entry are produced. -/
theorem c6_finally_resets_processing (s : AppState) (ts1 : String)
    (backend : Except String ProcessingResult) (ts2 : String)
    (hpath : truthyStr s.selectedPath = true) (hidle : s.isProcessing = false) :
    (startProcessingFinal s ts1 backend ts2).isProcessing = false ∧
    (∀ e, backend = Except.error e →
      (startProcessingFinal s ts1 backend ts2).statusMessage = "Error: " ++ e ∧
      (startProcessingFinal s ts1 backend ts2).logs =
        s.logs ++
          [{ level := "INFO", message := "Starting processing...", timestamp := ts1 },
           { level := "ERROR", message := "Processing failed: " ++ e, timestamp := ts2 }]) := by
  unfold startProcessingFinal startProcessingTrace
  rw [if_neg (by simp [hpath, hidle])]
  cases backend with
  | ok r =>
    refine ⟨rfl, fun e he => ?_⟩
    simp at he
  | error e0 =>
    refine ⟨rfl, fun e he => ?_⟩
    injection he with he0
    subst he0
    refine ⟨rfl, ?_⟩
    simp [AppState.addLog, AppState.setProcessing, AppState.setProcessingResult,
      AppState.updateProgress, AppState.setStatusMessage, List.append_assoc]

/-- Closed instance of C6 on a failing backend call from the concrete
start state. -/
theorem c6_finally_resets_processing_witness :
    (startProcessingFinal c3Start "t1" (Except.error "boom") "t2").isProcessing = false :=
  (c6_finally_resets_processing c3Start "t1" (Except.error "boom") "t2"
    (by decide) (by decide)).1

/-! ## Listener-heap lemmas -/

theorem unsub_preserves_getD (h : ObsHeap) (id r : Nat) (hr : r < h.arrays.length) :
    (ObsHeap.unsub h id).arrays.getD r [] = h.arrays.getD r [] ∧
    r < (ObsHeap.unsub h id).arrays.length := by
  constructor
  · simp only [ObsHeap.unsub, List.getD_eq_getElem?_getD]
    rw [List.getElem?_append_left hr]
  · simp only [ObsHeap.unsub, List.length_append]
    omega

theorem foldl_unsub_preserves_getD (ids : List Nat) (h : ObsHeap) (r : Nat)
    (hr : r < h.arrays.length) :
    (ids.foldl ObsHeap.unsub h).arrays.getD r [] = h.arrays.getD r [] ∧
    r < (ids.foldl ObsHeap.unsub h).arrays.length := by
  induction ids generalizing h with
  | nil => exact ⟨rfl, hr⟩
  | cons id rest ih =>
    have h1 := unsub_preserves_getD h id r hr
    have h2 := ih (ObsHeap.unsub h id) h1.2
    exact ⟨h2.1.trans h1.1, h2.2⟩

theorem notifyLoop_invoked (cb : Nat → List Nat) (r : Nat) (A : List Nat) :
    ∀ (n i : Nat) (h : ObsHeap), r < h.arrays.length → h.arrays.getD r [] = A →
      i + n = A.length → (ObsHeap.notifyLoop cb r i n h).1 = A.drop i := by
  intro n
  induction n with
  | zero =>
    intro i h _ _ hlen
    rw [show i = A.length by omega, List.drop_length]
    rfl
  | succ n ih =>
    intro i h hr hA hlen
    have hi : i < A.length := by omega
    have hget : (h.arrays.getD r []).get? i = some (A.get ⟨i, hi⟩) := by
      rw [hA, List.get?_eq_getElem?]
      simpa using List.getElem?_eq_getElem hi
    simp only [ObsHeap.notifyLoop, hget]
    have hp := foldl_unsub_preserves_getD (cb (A.get ⟨i, hi⟩)) h r hr
    have hrec := ih (i + 1) _ hp.2 (hp.1.trans hA) (by omega)
    rw [hrec]
    simpa using (List.drop_eq_getElem_cons hi).symm

/-- Claim C7: the listeners invoked by a `notify` are exactly those
registered when the notification began, whatever unsubscriptions the
subscriber callbacks perform mid-notification — `forEach` iterates the
array captured at the start, and an unsubscribe replaces the listener
array with a freshly filtered one instead of mutating it. -/
theorem c7_notify_snapshot (cb : Nat → List Nat) (h : ObsHeap)
    (hr : h.cur < h.arrays.length) :
    (ObsHeap.notify cb h).1 = h.listeners := by
  have := notifyLoop_invoked cb h.cur h.listeners h.listeners.length 0 h hr rfl
    (by omega)
  simpa [ObsHeap.notify] using this

/-- Closed instance of C7: three listeners, each unsubscribing itself
during the notification; all three are still invoked. -/
theorem c7_notify_snapshot_witness :
    (ObsHeap.notify cbExample obsExample).1 = [1, 2, 3] :=
  (c7_notify_snapshot cbExample obsExample (by decide)).trans (by decide)

/-- Claim C8: every mutation operation of the store is a total function
that performs exactly one subscriber notification — also when the value
passed equals the current field value, since no operation diffs before
notifying — and `reset` returns every field to its initial value with
exactly one notification. -/
theorem c8_mutations_notify (s : AppState) :
    (∀ p, (AppState.setSelectedPath s p).2 = 1) ∧
    (∀ b, (AppState.setProcessing s b).2 = 1) ∧
    (∀ r, (AppState.setProcessingResult s r).2 = 1) ∧
    (∀ lvl, (AppState.setSelectedLogLevel s lvl).2 = 1) ∧
    (∀ c t cat, (AppState.updateProgress s c t cat).2 = 1) ∧
    (∀ m, (AppState.setStatusMessage s m).2 = 1) ∧
    (∀ lvl msg ts, (AppState.addLog s lvl msg ts).2 = 1) ∧
    (AppState.clearLogs s).2 = 1 ∧
    (AppState.reset s).1 = AppState.initial ∧ (AppState.reset s).2 = 1 :=
  ⟨fun _ => rfl, fun _ => rfl, fun _ => rfl, fun _ => rfl, fun _ _ _ => rfl,
    fun _ => rfl, fun _ _ _ => rfl, rfl, rfl, rfl⟩

/-! ## Drop-handler lemmas -/

theorem itemsScan_no_path (items : List ItemObj)
    (h : ∀ item ∈ items, item.kind = "file" → itemExposesPath item = false) :
    itemsScan items =
      [DropAction.log "ERROR" "No files found in drop event or could not extract path"] := by
  induction items with
  | nil => rfl
  | cons item rest ih =>
    have hrest : ∀ it ∈ rest, it.kind = "file" → itemExposesPath it = false :=
      fun it hm => h it (List.mem_cons_of_mem item hm)
    simp only [itemsScan]
    split
    · rename_i hk
      have hexp := h item (List.mem_cons_self item rest) hk
      cases hf : item.file with
      | none => exact ih hrest
      | some f =>
        have hexp2 : truthyStr f.path = false := by
          unfold itemExposesPath at hexp
          rw [hf] at hexp
          exact hexp
        simp only [hexp2, Bool.false_eq_true, if_false]
        exact ih hrest
    · exact ih hrest

/-- Claim C9: a drop event whose only payload is a browser item-list in
which no file-kind item exposes a direct filesystem path resolves to the
single explicit "no usable path" ERROR log action, and applying the
handler's actions to the store changes only the log — selected path,
processing flag, result, progress and status message are untouched. -/
theorem c9_drop_no_usable_path (d : DropData) (s : AppState)
    (normalize : String → Except String String) (ts : String)
    (hfiles : d.files = [])
    (hitems : ∀ item ∈ d.items, item.kind = "file" → itemExposesPath item = false) :
    dropHandler d =
      [DropAction.log "ERROR" "No files found in drop event or could not extract path"] ∧
    applyDropActions s normalize ts (dropHandler d) =
      { s with logs := s.logs ++
          [{ level := "ERROR",
             message := "No files found in drop event or could not extract path",
             timestamp := ts }] } := by
  obtain ⟨files, items⟩ := d
  simp only at hfiles hitems
  subst hfiles
  have hd : dropHandler { files := [], items := items } = _ := itemsScan_no_path items hitems
  refine ⟨hd, ?_⟩
  rw [hd]
  rfl

/-- Closed instance of C9: an item-list-only drop payload with one
file-kind item lacking a path and one non-file item, applied to the
initial store. -/
theorem c9_drop_no_usable_path_witness :
    applyDropActions AppState.initial normalizeExample "t0" (dropHandler dropNoPath) =
      { AppState.initial with logs :=
          [{ level := "ERROR",
             message := "No files found in drop event or could not extract path",
             timestamp := "t0" }] } :=
  (c9_drop_no_usable_path dropNoPath AppState.initial normalizeExample "t0"
    rfl (by decide)).2

/-- Claim C10: the filter ranks any level string outside ERROR, WARNING,
INFO as INFO (rank 2), so such entries are shown only under the INFO
threshold; the Shell's drag-and-drop warning uses level "WARN", which is
hidden under the default WARNING threshold, and the drop handler indeed
emits level "WARN" for a named file without a path. -/
theorem c10_unknown_level_ranked_info :
    (∀ (level msg ts threshold : String),
      level ≠ "ERROR" → level ≠ "WARNING" → level ≠ "INFO" →
      (threshold = "INFO" ∨ threshold = "WARNING" ∨ threshold = "ERROR") →
      (shouldShowLog { level := level, message := msg, timestamp := ts } threshold = true ↔
        threshold = "INFO")) ∧
    (∀ msg ts, shouldShowLog { level := "WARN", message := msg, timestamp := ts }
      AppState.initial.selectedLogLevel = false) ∧
    dropHandler { files := [fileNoPath], items := [] } =
      [DropAction.log "WARN"
        "File dropped but no path found. File name: evidence.zip. This may not work for folders.",
       DropAction.log "ERROR" "No files found in drop event or could not extract path"] := by
  refine ⟨fun level msg ts threshold h1 h2 h3 hthr => ?_, fun msg ts => ?_, by decide⟩
  · rcases hthr with h | h | h <;> subst h <;>
      simp [shouldShowLog, levelIndex, h1, h2, h3]
  · simp [shouldShowLog, levelIndex, AppState.initial]

/-- Closed instance of C10 at the Shell's own "WARN" level under the
default WARNING threshold. -/
theorem c10_unknown_level_ranked_info_witness :
    (shouldShowLog { level := "WARN", message := "m", timestamp := "t" } "WARNING" = true ↔
      ("WARNING" : String) = "INFO") :=
  (c10_unknown_level_ranked_info).1 "WARN" "m" "t" "WARNING"
    (by decide) (by decide) (by decide) (Or.inr (Or.inl rfl))
